import Mathlib

/-!
Verification of the PropertyRent backend against its specification.

The Python sources are shallowly embedded:
* strings are Lean `String`s / `List Char`; Python `str.lower` is modelled for
  the ASCII alphabet (all inputs appearing in the claims are ASCII);
* Python numbers (ints and Decimals) are modelled as `Nat`/`Int`/`ℚ`;
* database rows are records, a database is a list of rows, and each controller
  is a state-passing function on an explicit world;
* `None` becomes `Option.none`; Python truthiness is modelled per type
  (`None`, `0`, `""` are falsy).
-/

/-! ## Python string primitives -/

/-- Python `str.lower` on a single ASCII character. -/
def pyLowerChar (c : Char) : Char :=
  if 'A' ≤ c ∧ c ≤ 'Z' then Char.ofNat (c.toNat + 32) else c

/-- Python `str.lower` (restricted to ASCII, which covers every string the
claims touch). -/
def pyLower (s : String) : String :=
  String.mk (s.data.map pyLowerChar)

/-- Python `needle in haystack` on strings, at the character-list level:
`true` iff `pat` occurs as a contiguous subsequence. -/
def containsSeq (pat : List Char) : List Char → Bool
  | [] => pat.isPrefixOf []
  | c :: rest => pat.isPrefixOf (c :: rest) || containsSeq pat rest

/-- Python `needle in haystack` on `String`s. -/
def pyContains (needle haystack : String) : Bool :=
  containsSeq needle.data haystack.data

/-! ## `controller/chatbot/chatbotEngine.py` — `ChatbotFlowEngine`

The `FLOWS` lookup table, `get_next_question` and
`determine_flow_from_response`, translated from
`src/controller/chatbot/chatbotEngine.py`. -/

/-- One entry of a flow's question list in `ChatbotFlowEngine.FLOWS`.
`is_final_override` models an explicit `"is_final"` key in the question dict
(present only on the last `property_search` question); `next_flow` models the
`"next_flow"` dict of the initial question (unused by `get_next_question`). -/
structure FlowQuestion where
  question : String
  options : Option (List String)
  input_type : String
  is_final_override : Option Bool := none
  next_flow : Option (List (String × String)) := none
  deriving Repr, DecidableEq

/-- The question a caller of `get_next_question` receives. -/
structure EngineQuestion where
  question : String
  options : Option (List String)
  input_type : String
  step_number : Nat
  is_final : Bool
  deriving Repr, DecidableEq

/-- `ChatbotFlowEngine.FLOWS` (chatbotEngine.py lines 10-97). -/
def FLOWS : List (String × List FlowQuestion) :=
  [ ("initial",
      [ { question := "Hi! I'm your property assistant. How can I help you today?"
        , options := some
            [ "Find a property to rent"
            , "Ask about a specific property"
            , "Schedule a property visit"
            , "Report an issue"
            , "Give feedback" ]
        , input_type := "choice"
        , next_flow := some
            [ ("Find a property to rent", "property_search")
            , ("Ask about a specific property", "rent_inquiry")
            , ("Schedule a property visit", "schedule_visit")
            , ("Report an issue", "bug_report")
            , ("Give feedback", "feedback") ] } ])
  , ("property_search",
      [ { question := "What type of property are you looking for?"
        , options := some ["Apartment", "House", "Studio", "Villa", "Any"]
        , input_type := "choice" }
      , { question := "Which city are you interested in?"
        , options := none, input_type := "text" }
      , { question := "What's your budget range per month?"
        , options := some ["Under ₹10,000", "₹10,000-₹25,000", "₹25,000-₹50,000",
            "₹50,000-₹1,00,000", "Above ₹1,00,000"]
        , input_type := "choice" }
      , { question := "How many bedrooms do you need?"
        , options := some ["Studio/0", "1 BHK", "2 BHK", "3 BHK", "4+ BHK"]
        , input_type := "choice" }
      , { question := "Do you have pets?"
        , options := some ["Yes", "No"], input_type := "choice" }
      , { question := "When do you want to move in?"
        , options := some ["Immediately", "Within 1 month", "1-3 months", "3+ months"]
        , input_type := "choice" }
      , { question := "Any specific amenities you need?"
        , options := some ["Parking", "Gym", "Swimming Pool", "Security", "None specific"]
        , input_type := "choice" }
      , { question := "Please provide your email address so our team can contact you with suitable property options:"
        , options := none, input_type := "email", is_final_override := some false } ])
  , ("rent_inquiry",
      [ { question := "Do you have a specific property in mind?"
        , options := some ["Yes", "No"], input_type := "choice" } ])
  , ("schedule_visit",
      [ { question := "Which property would you like to visit?"
        , options := none, input_type := "text" } ])
  , ("bug_report",
      [ { question := "What type of issue would you like to report?"
        , options := some ["Website bug", "Property not found error", "Search not working",
            "Other technical issue"]
        , input_type := "choice" } ])
  , ("feedback",
      [ { question := "What aspect would you like to give feedback about?"
        , options := some ["Property search experience", "Website usability",
            "Property listings quality", "Customer support", "Property visit experience",
            "Overall service"]
        , input_type := "choice" } ]) ]

/-- Python `flow_type in cls.FLOWS` / `cls.FLOWS[flow_type]` as one lookup. -/
def FLOWS_lookup (flow_type : String) : Option (List FlowQuestion) :=
  (FLOWS.find? (fun kv => kv.1 == flow_type)).map (fun kv => kv.2)

/-- `ChatbotFlowEngine.get_next_question` (chatbotEngine.py lines 111-128). -/
def get_next_question (flow_type : String) (step : Nat) : Option EngineQuestion :=
  match FLOWS_lookup flow_type with
  | none => none
  | some flow =>
    if h : step < flow.length then
      let question_data := flow.get ⟨step, h⟩
      some { question := question_data.question
           , options := question_data.options
           , input_type := question_data.input_type
           , step_number := step + 1
           , is_final := question_data.is_final_override.getD (decide (step = flow.length - 1)) }
    else none

/-- The `flow_mapping` dict of `determine_flow_from_response`
(chatbotEngine.py lines 135-141); the values are the `ChatbotFlowType`
string-enum members. -/
def flow_mapping : List (String × String) :=
  [ ("find a property to rent", "property_search")
  , ("ask about a specific property", "rent_inquiry")
  , ("schedule a property visit", "schedule_visit")
  , ("report an issue", "bug_report")
  , ("give feedback", "feedback") ]

/-- `ChatbotFlowEngine.determine_flow_from_response`
(chatbotEngine.py lines 130-143): dict lookup on the lowercased response with
default `ChatbotFlowType.BUG_REPORT`. -/
def determine_flow_from_response (response : String) : String :=
  ((flow_mapping.find? (fun kv => kv.1 == pyLower response)).map (fun kv => kv.2)).getD
    "bug_report"

/-! ## `model/chatbotModel.py` and `controller/chatbot/mainChatbotController.py`

The conversation store is modelled as an explicit world: a list of
`chatbot_conversations` rows and a list of `chatbot_messages` rows.
Wall-clock columns (`responded_at`, `response_time_seconds`, timestamps) are
not modelled; no claim mentions them. -/

/-- A `chatbot_conversations` row (chatbotModel.py). `status` holds a
`ConversationStatus` value ("active", "completed", "escalated", "abandoned");
`flow_type` a `ChatbotFlowType` value once determined. -/
structure Conversation where
  session_id : String
  flow_type : Option String := none
  guest_email : Option String := none
  guest_name : Option String := none
  current_step : Nat := 0
  status : String := "active"
  deriving Repr, DecidableEq

/-- A `chatbot_messages` row. `msg_id` models the primary key; the foreign key
to the conversation is represented by the (unique) `session_id`. -/
structure Message where
  msg_id : Nat
  session_id : String
  step_number : Nat
  question_text : String
  user_response : Option String := none
  deriving Repr, DecidableEq

/-- The database state the chatbot controllers read and write. -/
structure World where
  conversations : List Conversation
  messages : List Message
  next_msg_id : Nat
  deriving Repr, DecidableEq

/-- `ChatbotConversation.get_or_none(session_id=...)`. -/
def findConversation (w : World) (sid : String) : Option Conversation :=
  w.conversations.find? (fun c => c.session_id == sid)

/-- `ChatbotMessage.filter(conversation=...).order_by('-step_number').first()`:
the message of the conversation with the greatest `step_number`. -/
def latestMessage (w : World) (sid : String) : Option Message :=
  (w.messages.filter (fun m => m.session_id == sid)).foldl
    (fun best m =>
      match best with
      | none => some m
      | some b => if b.step_number < m.step_number then some m else some b)
    none

/-- `message.save()`: overwrite the row with matching primary key. -/
def saveMessage (w : World) (m : Message) : World :=
  { w with messages := w.messages.map (fun x => if x.msg_id == m.msg_id then m else x) }

/-- `conversation.save()`: overwrite the row with matching session id. -/
def saveConversation (w : World) (c : Conversation) : World :=
  { w with conversations :=
      w.conversations.map (fun x => if x.session_id == c.session_id then c else x) }

/-- `ChatbotMessage.create(conversation=..., step_number=..., question_text=...)`. -/
def createMessage (w : World) (sid : String) (step : Nat) (q : String) : World :=
  { w with
      messages := w.messages ++
        [{ msg_id := w.next_msg_id, session_id := sid, step_number := step,
           question_text := q }]
      next_msg_id := w.next_msg_id + 1 }

/-- An HTTP error raised by a controller (`HTTPException(status_code, detail)`). -/
structure HttpError where
  status : Nat
  detail : String
  deriving Repr, DecidableEq

/-- Result of a chatbot endpoint: either a raised `HTTPException` or a normal
return, in both cases paired with the database state after the call. -/
abbrev ChatOut := Except HttpError Unit × World

/-- What `MainChatbotController.handle_chat_response` does before routing to a
flow controller (mainChatbotController.py lines 96-156):
`httpError` for the two raise sites, `route` for the branch that recorded the
user's response (lines 114-150), `standard` for the fall-through to
`_handle_standard_flow` (lines 151-156). -/
inductive PreOut where
  | httpError (status : Nat) (detail : String)
  | route (w : World) (conv : Conversation) (msg : Message)
  | standard (w : World) (conv : Conversation)
  deriving Repr, DecidableEq

/-- `handle_chat_response` up to (not including) the per-flow dispatch
(mainChatbotController.py lines 96-156). -/
def chat_response_pre (w : World) (session_id user_response : String) : PreOut :=
  match findConversation w session_id with
  | none => .httpError 404 "Conversation not found"
  | some conv =>
    if conv.status ≠ "active" then .httpError 400 "Conversation is not active"
    else
      match latestMessage w session_id with
      | some current_message =>
        if current_message.user_response = none then
          let msg1 := { current_message with user_response := some user_response }
          let w1 := saveMessage w msg1
          if conv.current_step = 0 ∧ conv.flow_type = none then
            let conv1 :=
              { conv with flow_type := some (determine_flow_from_response user_response) }
            .route (saveConversation w1 conv1) conv1 msg1
          else .route w1 conv msg1
        else .standard w conv
      | none => .standard w conv

/-- The five flow controllers `handle_chat_response` dispatches to, plus
`ConversationController.handle_satisfaction_question`; their bodies live in
separate modules, so `handle_chat_response` is parametrised by them. -/
structure SubControllers where
  propertySearch : World → Conversation → Message → String → ChatOut
  rentInquiry : World → Conversation → Message → String → ChatOut
  scheduleVisit : World → Conversation → Message → String → ChatOut
  bugReport : World → Conversation → Message → String → ChatOut
  feedback : World → Conversation → Message → String → ChatOut
  satisfaction : World → Conversation → ChatOut

/-- `MainChatbotController._handle_standard_flow`
(mainChatbotController.py lines 167-213). -/
def handle_standard_flow (satisfaction : World → Conversation → ChatOut)
    (w : World) (conv : Conversation) : ChatOut :=
  let next := match conv.flow_type with
    | none => none
    | some ft => get_next_question ft conv.current_step
  match next with
  | none => satisfaction w conv
  | some q =>
    let w1 := createMessage w conv.session_id (conv.current_step + 1) q.question
    let w2 := saveConversation w1 { conv with current_step := conv.current_step + 1 }
    (.ok (), w2)

/-- `MainChatbotController.handle_chat_response`
(mainChatbotController.py lines 92-165). -/
def handle_chat_response (sub : SubControllers) (w : World)
    (session_id user_response : String) : ChatOut :=
  match chat_response_pre w session_id user_response with
  | .httpError s d => (.error ⟨s, d⟩, w)
  | .route w1 conv msg =>
    match conv.flow_type with
    | some "property_search" => sub.propertySearch w1 conv msg user_response
    | some "rent_inquiry" => sub.rentInquiry w1 conv msg user_response
    | some "schedule_visit" => sub.scheduleVisit w1 conv msg user_response
    | some "bug_report" => sub.bugReport w1 conv msg user_response
    | some "feedback" => sub.feedback w1 conv msg user_response
    | _ => handle_standard_flow sub.satisfaction w1 conv
  | .standard w1 conv => handle_standard_flow sub.satisfaction w1 conv

/-- The conversation row the request continues with (used to observe whether
`handle_chat_response` assigned a flow before routing). -/
def preConversation : PreOut → Option Conversation
  | .httpError _ _ => none
  | .route _ c _ => some c
  | .standard _ c => some c

/-! ## `controller/chatbot/propertySearchController.py`

The decision `PropertySearchController.handle_response` makes after saving the
user's response (lines 22-77): either show the completion message or ask the
next engine question. -/

/-- The string literal `handle_response` compares the lowercased previous
question against (propertySearchController.py line 46). Note it lacks the
trailing colon of the stored flow question. -/
def psEmailQuestionCmp : String :=
  "please provide your email address so our team can contact you with suitable property options"

/-- Outcome of one `PropertySearchController.handle_response` call. -/
inductive PSOutcome where
  | completion
  | next (q : EngineQuestion)
  deriving Repr, DecidableEq

/-- `PropertySearchController.handle_response`, reduced to its control flow
(propertySearchController.py lines 33-77): `current_question` is the previous
question's text, `current_step` the conversation's step. `completion` stands
for `_show_completion_message`. -/
def propertySearchStep (current_step : Nat) (question_text user_response : String) :
    PSOutcome :=
  let current_question := pyLower question_text
  match get_next_question "property_search" current_step with
  | none => .completion
  | some q =>
    if q.is_final ∧ user_response ≠ "" ∧ current_question = psEmailQuestionCmp then
      .completion
    else .next q

/-! ## `controller/chatbot/chatbotFeedbackController.py`

The feedback flow serializes its collected answers into the conversation's
`guest_email` column as pipe-delimited `TAG:value` pairs and parses them back
in `_complete_feedback`. Strings are handled at the `List Char` level so that
Python's `str.split` / `str.replace` can be modelled exactly. -/

/-- Python `s.split("|")` for the single-character separator `"|"`. -/
def splitOnPipe : List Char → List (List Char)
  | [] => [[]]
  | c :: rest =>
    match splitOnPipe rest with
    | [] => [[]]
    | h :: t => if c = '|' then [] :: h :: t else (c :: h) :: t

/-- Python `s.replace(tag, "")` for a non-empty `tag`: delete the leftmost
occurrence and continue scanning after it. -/
def stripAll (tag : List Char) (s : List Char) : List Char :=
  match s with
  | [] => []
  | c :: rest =>
    if h : tag ≠ [] ∧ tag.isPrefixOf (c :: rest) then
      stripAll tag (List.drop tag.length (c :: rest))
    else
      c :: stripAll tag rest
termination_by s.length
decreasing_by
  · have htag : 0 < tag.length := List.length_pos.mpr h.1
    simp only [List.length_drop, List.length_cons]
    omega
  · simp

/-- The suffix immediately after the first occurrence of `pat` in `s`
(`none` when `pat not in s`). -/
def afterFirst (pat : List Char) : List Char → Option (List Char)
  | [] => if pat.isPrefixOf [] then some [] else none
  | c :: rest =>
    if pat.isPrefixOf (c :: rest) then some (List.drop pat.length (c :: rest))
    else afterFirst pat rest

/-- The rating-value extraction used in `_handle_rating_selection` and
`_handle_detailed_feedback` (lines 168-178 and 229-241): substring tests with
default `"3"`. -/
def ratingValueOfText (t : List Char) : Nat :=
  if containsSeq "(5/5)".data t then 5
  else if containsSeq "(4/5)".data t then 4
  else if containsSeq "(3/5)".data t then 3
  else if containsSeq "(2/5)".data t then 2
  else if containsSeq "(1/5)".data t then 1
  else 3

/-- `_handle_detailed_feedback` lines 229-241:
`stored_data.split("|RATING:")[1].split("|")[0]` guarded by
`"|RATING:" in stored_data`, then the substring tests. Because the separator
`"|RATING:"` itself starts with `'|'`, the composite equals "text after the
first `|RATING:` up to the next `'|'`". -/
def ratingValueFromStored (stored : List Char) : Nat :=
  match afterFirst "|RATING:".data stored with
  | some tail => ratingValueOfText (tail.takeWhile (fun c => c ≠ '|'))
  | none => 3

/-- `guest_email` after `_handle_feedback_category_selection` (line 109). -/
def storedAfterCategory (c : List Char) : List Char :=
  "CATEGORY:".data ++ c

/-- `guest_email` after `_handle_rating_selection` (lines 159-160). -/
def storedAfterRating (c r : List Char) : List Char :=
  storedAfterCategory c ++ "|RATING:".data ++ r

/-- `guest_email` after `_handle_detailed_feedback` (lines 225-226). -/
def storedAfterDetails (c r d : List Char) : List Char :=
  storedAfterRating c r ++ "|DETAILS:".data ++ d

/-- `guest_email` when `_complete_feedback` runs, for a feedback conversation
with category response `c`, rating response `r`, detailed-feedback response
`d`, improvement-suggestions response `s` and follow-up response `f`.
The suggestions question is asked — and `|SUGGESTIONS:` appended by
`_handle_improvement_suggestions` (line 289) — exactly when the rating parsed
from the stored data is ≥ 4 (`_handle_detailed_feedback` lines 243-277);
`|FOLLOWUP:` is appended by `_handle_followup_preference` (line 343). -/
def feedbackStored (c r d s f : List Char) : List Char :=
  let afterDetails := storedAfterDetails c r d
  let beforeFollowup :=
    if 4 ≤ ratingValueFromStored (storedAfterRating c r) then
      afterDetails ++ "|SUGGESTIONS:".data ++ s
    else afterDetails
  beforeFollowup ++ "|FOLLOWUP:".data ++ f

/-- The five variables `_complete_feedback` fills from the stored data
(lines 400-405). -/
structure FeedbackParsed where
  category : List Char := []
  rating : List Char := []
  details : List Char := []
  suggestions : List Char := []
  followup : List Char := []
  deriving Repr, DecidableEq

/-- One iteration of the `for part in parts` loop of `_complete_feedback`
(lines 407-418): `startswith` dispatch, then `replace(tag, "")`. -/
def parseStep (st : FeedbackParsed) (part : List Char) : FeedbackParsed :=
  if "CATEGORY:".data.isPrefixOf part then
    { st with category := stripAll "CATEGORY:".data part }
  else if "RATING:".data.isPrefixOf part then
    { st with rating := stripAll "RATING:".data part }
  else if "DETAILS:".data.isPrefixOf part then
    { st with details := stripAll "DETAILS:".data part }
  else if "SUGGESTIONS:".data.isPrefixOf part then
    { st with suggestions := stripAll "SUGGESTIONS:".data part }
  else if "FOLLOWUP:".data.isPrefixOf part then
    { st with followup := stripAll "FOLLOWUP:".data part }
  else st

/-- The parse in `_complete_feedback` (lines 397-418):
`stored_data.split("|")` then the assignment loop. -/
def feedbackParse (stored : List Char) : FeedbackParsed :=
  (splitOnPipe stored).foldl parseStep {}

/-! ## `controller/propertyRecommendationController.py` — `PropertyMatchingService`

Prices and scores are modelled as exact rationals (the Python code mixes
Decimal columns and float literals; no claim depends on float rounding).
Bedroom/bathroom counts are naturals. Python truthiness of the optional
criteria values (`dict.get` returning `None`, `0` or `""`) is modelled by the
`truthy…` helpers. -/

/-- Truthiness of an optional number (`None` and `0` are falsy). -/
def truthyQ : Option ℚ → Bool
  | none => false
  | some x => x != 0

/-- Truthiness of an optional count. -/
def truthyN : Option Nat → Bool
  | none => false
  | some n => n != 0

/-- Truthiness of an optional string (`None` and `""` are falsy). -/
def truthyS : Option String → Bool
  | none => false
  | some s => s != ""

/-- A `properties` row with a `media` row (propertyModel.py,
propertyMediaModel.py), restricted to the columns the matching service and
the serializers read. -/
structure MediaObj where
  url : String
  is_cover : Bool
  deriving Repr, DecidableEq

structure PropertyObj where
  id : String
  title : String
  description : Option String
  property_type : Option String
  status : String
  price : ℚ
  city : Option String
  state : Option String
  bedrooms : Option Nat
  bathrooms : Option Nat
  media : List MediaObj
  deriving Repr, DecidableEq

/-- The `user_criteria` dict assembled from the screening responses
(propertyRecommendationController.py lines 174-182). -/
structure Criteria where
  budget_min : Option ℚ := none
  budget_max : Option ℚ := none
  preferred_location : Option String := none
  bedrooms_required : Option Nat := none
  bathrooms_required : Option Nat := none
  property_type_preference : Option String := none
  deriving Repr, DecidableEq

/-- Budget block of `calculate_property_match_score` (lines 36-44), returning
(points added to `score`, points added to `max_score`, appended reasons). -/
def budgetBlock (p : PropertyObj) (c : Criteria) : ℚ × ℚ × List String :=
  if truthyQ c.budget_min ∧ truthyQ c.budget_max then
    if c.budget_min.getD 0 ≤ p.price ∧ p.price ≤ c.budget_max.getD 0 then
      (30, 30, ["Price within budget"])
    else if p.price ≤ c.budget_max.getD 0 * (11 / 10) then
      (20, 30, ["Price close to budget"])
    else (0, 30, [])
  else (0, 0, [])

/-- Location block (lines 46-56): case-insensitive substring match against
`city`, else against `state`. -/
def locationBlock (p : PropertyObj) (c : Criteria) : ℚ × ℚ × List String :=
  if truthyS c.preferred_location then
    if truthyS p.city ∧
        pyContains (pyLower (c.preferred_location.getD "")) (pyLower (p.city.getD "")) then
      (25, 25, ["Location match"])
    else if truthyS p.state ∧
        pyContains (pyLower (c.preferred_location.getD "")) (pyLower (p.state.getD "")) then
      (15, 25, ["State match"])
    else (0, 25, [])
  else (0, 0, [])

/-- Bedrooms block (lines 58-66). Note both branches require
`property_obj.bedrooms` to be truthy (non-`None` and non-zero). -/
def bedroomsBlock (p : PropertyObj) (c : Criteria) : ℚ × ℚ × List String :=
  if truthyN c.bedrooms_required then
    if truthyN p.bedrooms ∧ c.bedrooms_required.getD 0 ≤ p.bedrooms.getD 0 then
      (20, 20, [toString (p.bedrooms.getD 0) ++ " bedrooms available"])
    else if truthyN p.bedrooms ∧ p.bedrooms.getD 0 = c.bedrooms_required.getD 0 - 1 then
      (10, 20, ["Close to bedroom requirement"])
    else (0, 20, [])
  else (0, 0, [])

/-- Bathrooms block (lines 68-73). -/
def bathroomsBlock (p : PropertyObj) (c : Criteria) : ℚ × ℚ × List String :=
  if truthyN c.bathrooms_required then
    if truthyN p.bathrooms ∧ c.bathrooms_required.getD 0 ≤ p.bathrooms.getD 0 then
      (15, 15, [toString (p.bathrooms.getD 0) ++ " bathrooms available"])
    else (0, 15, [])
  else (0, 0, [])

/-- Property-type block (lines 75-81). -/
def typeBlock (p : PropertyObj) (c : Criteria) : ℚ × ℚ × List String :=
  if truthyS c.property_type_preference then
    if truthyS p.property_type ∧
        pyContains (pyLower (c.property_type_preference.getD ""))
          (pyLower (p.property_type.getD "")) then
      (10, 10, ["Property type match"])
    else (0, 10, [])
  else (0, 0, [])

/-- The accumulated `score`, `max_score` and `match_reasons` after the five
blocks of `calculate_property_match_score` (lines 32-81), in source order. -/
def matchComponents (p : PropertyObj) (c : Criteria) : ℚ × ℚ × List String :=
  let b := budgetBlock p c
  let l := locationBlock p c
  let bd := bedroomsBlock p c
  let ba := bathroomsBlock p c
  let t := typeBlock p c
  ( b.1 + l.1 + bd.1 + ba.1 + t.1
  , b.2.1 + l.2.1 + bd.2.1 + ba.2.1 + t.2.1
  , b.2.2 ++ l.2.2 ++ bd.2.2 ++ ba.2.2 ++ t.2.2 )

/-- `PropertyMatchingService.calculate_property_match_score`
(lines 30-89): the final percentage score and the match reasons. -/
def calculate_property_match_score (p : PropertyObj) (c : Criteria) : ℚ × List String :=
  let comps := matchComponents p c
  (if 0 < comps.2.1 then comps.1 / comps.2.1 * 100 else 0, comps.2.2)

/-- Python `round(x, 1)`: rounding to one decimal, modelled as exact rational
rounding (the tie-breaking direction of float `round` is irrelevant to every
claim). -/
def pyRound1 (x : ℚ) : ℚ :=
  (round (x * 10) : ℤ) / 10

/-- One element of the `property_matches` list built by
`find_matching_properties` (lines 133-145). -/
structure MatchEntry where
  property_id : String
  title : String
  property_type : Option String
  price : ℚ
  location : String
  bedrooms : Option Nat
  bathrooms : Option Nat
  match_score : ℚ
  match_reasons : List String
  cover_image : Option String
  description : Option String
  deriving Repr, DecidableEq

/-- The `location` string of an entry (line 138):
`f"{city}, {state}"` when both are truthy, else `city or state or
"Location TBD"`. -/
def entryLocation (p : PropertyObj) : String :=
  if truthyS p.city ∧ truthyS p.state then p.city.getD "" ++ ", " ++ p.state.getD ""
  else if truthyS p.city then p.city.getD ""
  else if truthyS p.state then p.state.getD ""
  else "Location TBD"

/-- The truncated `description` of an entry (line 144). -/
def entryDescription (p : PropertyObj) : Option String :=
  match p.description with
  | none => none
  | some d =>
    if 200 < d.length then some (String.mk (d.data.take 200) ++ "...") else some d

/-- The entry built for a property that passed the score threshold
(lines 126-145). -/
def mkMatchEntry (p : PropertyObj) (score : ℚ) (reasons : List String) : MatchEntry :=
  { property_id := p.id
  , title := p.title
  , property_type := p.property_type
  , price := p.price
  , location := entryLocation p
  , bedrooms := p.bedrooms
  , bathrooms := p.bathrooms
  , match_score := pyRound1 score
  , match_reasons := reasons
  , cover_image := (p.media.find? (fun m => m.is_cover)).map (fun m => m.url)
  , description := entryDescription p }

/-- `PropertyMatchingService.find_matching_properties` (lines 92-154) over an
explicit list of stored properties: the `status="available"` filter, the
optional budget and location query filters, `limit(limit * 2)`, per-property
scoring with the `match_score >= 30` cut, the descending sort on
`match_score`, and the final `[:limit]`. -/
def find_matching_properties (user_criteria : Criteria) (db : List PropertyObj)
    (limit : Nat := 10) : List MatchEntry :=
  let q0 := db.filter (fun p => p.status == "available")
  let q1 :=
    if truthyQ user_criteria.budget_min ∧ truthyQ user_criteria.budget_max then
      q0.filter (fun p =>
        decide (user_criteria.budget_min.getD 0 ≤ p.price ∧
          p.price ≤ user_criteria.budget_max.getD 0 * (11 / 10)))
    else q0
  let q2 :=
    if truthyS user_criteria.preferred_location then
      q1.filter (fun p =>
        (match p.city with
          | some ct => pyContains (pyLower (user_criteria.preferred_location.getD ""))
              (pyLower ct)
          | none => false) ||
        (match p.state with
          | some st => pyContains (pyLower (user_criteria.preferred_location.getD ""))
              (pyLower st)
          | none => false))
    else q1
  let fetched := q2.take (limit * 2)
  let property_matches := fetched.filterMap (fun p =>
    let scored := calculate_property_match_score p user_criteria
    if decide (30 ≤ scored.1) then some (mkMatchEntry p scored.1 scored.2) else none)
  let sorted := property_matches.mergeSort
    (fun a b => decide (b.match_score ≤ a.match_score))
  sorted.take limit

/-! ### The score as the specification words it (for claim C1)

`specClaimScore` follows the claim sentence literally; `specAmendedScore`
differs from it only in the bedroom partial-credit clause, which — matching
the code's truthiness guard on `property_obj.bedrooms` — additionally requires
the property's bedroom count to be non-zero. -/

/-- Claim C1's budget clause: 30 points within budget, else 20 within 10%
over the maximum. -/
def specBudgetPoints (p : PropertyObj) (c : Criteria) : ℚ :=
  if c.budget_min.getD 0 ≤ p.price ∧ p.price ≤ c.budget_max.getD 0 then 30
  else if p.price ≤ c.budget_max.getD 0 * (11 / 10) then 20
  else 0

/-- Claim C1's location clause: 25 for a case-insensitive city substring
match, else 15 for a state match. -/
def specLocationPoints (p : PropertyObj) (c : Criteria) : ℚ :=
  if truthyS p.city ∧
      pyContains (pyLower (c.preferred_location.getD "")) (pyLower (p.city.getD "")) then 25
  else if truthyS p.state ∧
      pyContains (pyLower (c.preferred_location.getD "")) (pyLower (p.state.getD "")) then 15
  else 0

/-- Claim C1's bedroom clause as stated: 20 when the property has at least the
required bedrooms, else 10 when it has exactly one fewer. -/
def specBedroomsPoints (p : PropertyObj) (c : Criteria) : ℚ :=
  if c.bedrooms_required.getD 0 ≤ p.bedrooms.getD 0 then 20
  else if p.bedrooms.getD 0 = c.bedrooms_required.getD 0 - 1 then 10
  else 0

/-- The bedroom clause as the code actually behaves: the 10-point partial
credit additionally requires a non-zero bedroom count. -/
def specBedroomsPointsAmended (p : PropertyObj) (c : Criteria) : ℚ :=
  if c.bedrooms_required.getD 0 ≤ p.bedrooms.getD 0 then 20
  else if p.bedrooms.getD 0 = c.bedrooms_required.getD 0 - 1 ∧ p.bedrooms.getD 0 ≠ 0 then 10
  else 0

/-- Claim C1's bathroom clause: 15 when the property has at least the required
bathrooms. -/
def specBathroomsPoints (p : PropertyObj) (c : Criteria) : ℚ :=
  if truthyN p.bathrooms ∧ c.bathrooms_required.getD 0 ≤ p.bathrooms.getD 0 then 15 else 0

/-- Claim C1's property-type clause. -/
def specTypePoints (p : PropertyObj) (c : Criteria) : ℚ :=
  if truthyS p.property_type ∧
      pyContains (pyLower (c.property_type_preference.getD ""))
        (pyLower (p.property_type.getD "")) then 10
  else 0

/-- The sum of the weights of the criteria present in `c` (30 + 25 + 20 +
15 + 10 for budget, location, bedrooms, bathrooms, type). -/
def specWeights (c : Criteria) : ℚ :=
  (if truthyQ c.budget_min ∧ truthyQ c.budget_max then 30 else 0) +
  (if truthyS c.preferred_location then 25 else 0) +
  (if truthyN c.bedrooms_required then 20 else 0) +
  (if truthyN c.bathrooms_required then 15 else 0) +
  (if truthyS c.property_type_preference then 10 else 0)

/-- The earned points under claim C1 as stated. -/
def specClaimPoints (p : PropertyObj) (c : Criteria) : ℚ :=
  (if truthyQ c.budget_min ∧ truthyQ c.budget_max then specBudgetPoints p c else 0) +
  (if truthyS c.preferred_location then specLocationPoints p c else 0) +
  (if truthyN c.bedrooms_required then specBedroomsPoints p c else 0) +
  (if truthyN c.bathrooms_required then specBathroomsPoints p c else 0) +
  (if truthyS c.property_type_preference then specTypePoints p c else 0)

/-- The earned points with the amended bedroom clause. -/
def specAmendedPoints (p : PropertyObj) (c : Criteria) : ℚ :=
  (if truthyQ c.budget_min ∧ truthyQ c.budget_max then specBudgetPoints p c else 0) +
  (if truthyS c.preferred_location then specLocationPoints p c else 0) +
  (if truthyN c.bedrooms_required then specBedroomsPointsAmended p c else 0) +
  (if truthyN c.bathrooms_required then specBathroomsPoints p c else 0) +
  (if truthyS c.property_type_preference then specTypePoints p c else 0)

/-- The final score exactly as claim C1 states it. -/
def specClaimScore (p : PropertyObj) (c : Criteria) : ℚ :=
  if 0 < specWeights c then specClaimPoints p c / specWeights c * 100 else 0

/-- The final score under the amended bedroom clause. -/
def specAmendedScore (p : PropertyObj) (c : Criteria) : ℚ :=
  if 0 < specWeights c then specAmendedPoints p c / specWeights c * 100 else 0

/-! ## `controller/propertyController.py` — `delete_property` / `get_property_by_id`

Property rows live in a table keyed by UUID; media rows reference their
property with an `ON DELETE CASCADE` foreign key. The embedding is
parametrised by the UUID type and by `uuid.UUID(...)` string parsing, so the
theorems hold for any parser. Row columns not read by these two endpoints are
represented by the ones below; a row moves (or is deleted) as a whole. -/

structure PropRow (U : Type) where
  id : U
  title : String
  description : Option String
  city : Option String
  state : Option String
  deriving Repr, DecidableEq

structure MediaRow (U : Type) where
  media_id : String
  property_id : U
  url : String
  is_cover : Bool
  deriving Repr, DecidableEq

structure PropertyDb (U : Type) where
  props : List (PropRow U)
  media : List (MediaRow U)
  deriving Repr, DecidableEq

inductive DeleteOutcome (U : Type) where
  | badRequest
  | notFound
  | ok (db : PropertyDb U)
  deriving Repr, DecidableEq

inductive GetOutcome (U : Type) where
  | badRequest
  | notFound
  | ok (row : PropRow U) (media : List (MediaRow U))
  deriving Repr, DecidableEq

/-- `delete_property` (propertyController.py lines 192-232): 400 on an
unparsable id, 404 when no row has the id, else delete the row (its media
rows go with it via the CASCADE foreign key). -/
def delete_property {U : Type} [DecidableEq U] (parseUuid : String → Option U)
    (db : PropertyDb U) (property_id : String) : DeleteOutcome U :=
  match parseUuid property_id with
  | none => .badRequest
  | some u =>
    match db.props.find? (fun r => decide (r.id = u)) with
    | none => .notFound
    | some _ =>
      .ok { props := db.props.filter (fun r => decide (r.id ≠ u))
          , media := db.media.filter (fun m => decide (m.property_id ≠ u)) }

/-- `get_property_by_id` (propertyController.py lines 342-413): 400 on an
unparsable id, 404 when no row has the id, else the row with its media. -/
def get_property_by_id {U : Type} [DecidableEq U] (parseUuid : String → Option U)
    (db : PropertyDb U) (property_id : String) : GetOutcome U :=
  match parseUuid property_id with
  | none => .badRequest
  | some u =>
    match db.props.find? (fun r => decide (r.id = u)) with
    | none => .notFound
    | some r => .ok r (db.media.filter (fun m => decide (m.property_id = u)))

/-! ## Test fixtures used by witness theorems -/

/-- A vacuous set of flow controllers (the main-controller theorems hold for
every choice of flow controllers; witnesses instantiate them with this one). -/
def trivialSub : SubControllers :=
  { propertySearch := fun w _ _ _ => (.ok (), w)
  , rentInquiry := fun w _ _ _ => (.ok (), w)
  , scheduleVisit := fun w _ _ _ => (.ok (), w)
  , bugReport := fun w _ _ _ => (.ok (), w)
  , feedback := fun w _ _ _ => (.ok (), w)
  , satisfaction := fun w _ => (.ok (), w) }

/-- A two-property, two-media database over natural-number UUIDs. -/
def sampleDb : PropertyDb Nat :=
  { props :=
      [ { id := 1, title := "Sunset Villa", description := some "nice",
          city := some "Pune", state := some "MH" }
      , { id := 2, title := "City Flat", description := none,
          city := some "Mumbai", state := some "MH" } ]
  , media :=
      [ { media_id := "m1", property_id := 1, url := "u1", is_cover := true }
      , { media_id := "m2", property_id := 2, url := "u2", is_cover := false } ] }

/-- A concrete stand-in for `uuid.UUID` parsing over natural-number UUIDs,
used only by witnesses (the theorems hold for every parser). -/
def sampleParse : String → Option Nat :=
  fun s => if s = "1" then some 1 else if s = "2" then some 2 else none

/-- `sampleDb` after deleting property 1. -/
def sampleDbAfter : PropertyDb Nat :=
  { props :=
      [ { id := 2, title := "City Flat", description := none,
          city := some "Mumbai", state := some "MH" } ]
  , media :=
      [ { media_id := "m2", property_id := 2, url := "u2", is_cover := false } ] }

/-- A world whose only conversation is at step 0 with no flow, but whose
latest message already carries a response. -/
def staleWorld : World :=
  { conversations := [{ session_id := "s" }]
  , messages :=
      [ { msg_id := 0, session_id := "s", step_number := 0
        , question_text := "Hi! I'm your property assistant. How can I help you today?"
        , user_response := some "Give feedback" } ]
  , next_msg_id := 1 }

/-- The property of claim C1's counterexample: a 0-bedroom studio against a
criteria record asking for one bedroom. -/
def studio0 : PropertyObj :=
  { id := "p0", title := "Studio Unit", description := none
  , property_type := some "studio", status := "available", price := 500
  , city := none, state := none, bedrooms := some 0, bathrooms := none, media := [] }

/-- Criteria with only `bedrooms_required = 1` present. -/
def oneBedCriteria : Criteria := { bedrooms_required := some 1 }

/-! ## Theorems -/

/-- C2: `get_next_question` returns `none` exactly when the flow name is not a
key of `FLOWS` or the index is at least the number of questions in that flow;
otherwise it returns the question stored at that index, with `step_number`
equal to index + 1 and `is_final` true precisely when the index is the flow's
last position unless the stored question overrides `is_final`. -/
theorem claim_C2 (flow_type : String) (step : Nat) :
    (get_next_question flow_type step = none ↔
      FLOWS_lookup flow_type = none ∨
        ∃ flow, FLOWS_lookup flow_type = some flow ∧ flow.length ≤ step) ∧
    (∀ flow : List FlowQuestion, ∀ h : step < flow.length,
      FLOWS_lookup flow_type = some flow →
      get_next_question flow_type step =
        some { question := (flow.get ⟨step, h⟩).question
             , options := (flow.get ⟨step, h⟩).options
             , input_type := (flow.get ⟨step, h⟩).input_type
             , step_number := step + 1
             , is_final := (flow.get ⟨step, h⟩).is_final_override.getD
                 (decide (step = flow.length - 1)) }) := by
  constructor
  · cases hF : FLOWS_lookup flow_type with
    | none => simp [get_next_question, hF]
    | some flow =>
      simp only [get_next_question, hF]
      by_cases h : step < flow.length
      · simp only [dif_pos h]
        constructor
        · intro hc; exact absurd hc (by simp)
        · rintro (hc | ⟨fl, hfl, hlen⟩)
          · exact absurd hc (by simp)
          · cases hfl; omega
      · simp only [dif_neg h]
        constructor
        · intro _; exact Or.inr ⟨flow, rfl, by omega⟩
        · intro _; trivial
  · intro flow h hF
    simp [get_next_question, hF, dif_pos h]

/-- C2 witness: the third `property_search` question, evaluated concretely. -/
theorem claim_C2_witness :
    get_next_question "property_search" 2 =
      some { question := "What's your budget range per month?"
           , options := some ["Under ₹10,000", "₹10,000-₹25,000", "₹25,000-₹50,000",
               "₹50,000-₹1,00,000", "Above ₹1,00,000"]
           , input_type := "choice"
           , step_number := 3
           , is_final := false } := by
  have h := (claim_C2 "property_search" 2).2
    ((FLOWS_lookup "property_search").getD []) (by decide) (by decide)
  exact h.trans (by decide)

/-- C8: every first response whose lowercasing is not exactly one of the five
initial menu option strings is routed to the `bug_report` flow. -/
theorem claim_C8 (response : String)
    (h : pyLower response ∉
      [ "find a property to rent", "ask about a specific property"
      , "schedule a property visit", "report an issue", "give feedback" ]) :
    determine_flow_from_response response = "bug_report" := by
  simp only [List.mem_cons, not_or, List.mem_singleton, List.not_mem_nil,
    or_false] at h
  obtain ⟨h1, h2, h3, h4, h5⟩ := h
  simp only [determine_flow_from_response, flow_mapping, List.find?,
    beq_eq_false_iff_ne, ne_eq,
    show (("find a property to rent" : String) == pyLower response) = false from
      beq_eq_false_iff_ne.mpr (fun e => h1 e.symm),
    show (("ask about a specific property" : String) == pyLower response) = false from
      beq_eq_false_iff_ne.mpr (fun e => h2 e.symm),
    show (("schedule a property visit" : String) == pyLower response) = false from
      beq_eq_false_iff_ne.mpr (fun e => h3 e.symm),
    show (("report an issue" : String) == pyLower response) = false from
      beq_eq_false_iff_ne.mpr (fun e => h4 e.symm),
    show (("give feedback" : String) == pyLower response) = false from
      beq_eq_false_iff_ne.mpr (fun e => h5 e.symm)]
  rfl

/-- C8 witness: a greeting is routed to `bug_report`. -/
theorem claim_C8_witness : determine_flow_from_response "Hello there!" = "bug_report" :=
  claim_C8 "Hello there!" (by decide)

/-- C5: `handle_chat_response` fails with 404 when no conversation has the
session id, and with 400 when the conversation exists but is not active; in
both failure cases the database (conversations and messages alike) is returned
unchanged. -/
theorem claim_C5 (sub : SubControllers) (w : World) (session_id user_response : String) :
    (findConversation w session_id = none →
      handle_chat_response sub w session_id user_response =
        (.error ⟨404, "Conversation not found"⟩, w)) ∧
    (∀ conv, findConversation w session_id = some conv → conv.status ≠ "active" →
      handle_chat_response sub w session_id user_response =
        (.error ⟨400, "Conversation is not active"⟩, w)) := by
  constructor
  · intro h
    simp [handle_chat_response, chat_response_pre, h]
  · intro conv h hs
    simp [handle_chat_response, chat_response_pre, h, hs]

/-- C5 witness: a missing session 404s on the empty database, and a completed
conversation 400s, in both cases leaving the database untouched. -/
theorem claim_C5_witness :
    handle_chat_response trivialSub ⟨[], [], 0⟩ "ghost" "hi" =
      (.error ⟨404, "Conversation not found"⟩, (⟨[], [], 0⟩ : World)) ∧
    handle_chat_response trivialSub
        ⟨[{ session_id := "s", status := "completed" }], [], 0⟩ "s" "hi" =
      (.error ⟨400, "Conversation is not active"⟩,
        (⟨[{ session_id := "s", status := "completed" }], [], 0⟩ : World)) :=
  ⟨(claim_C5 trivialSub ⟨[], [], 0⟩ "ghost" "hi").1 (by decide),
   (claim_C5 trivialSub ⟨[{ session_id := "s", status := "completed" }], [], 0⟩ "s" "hi").2
     { session_id := "s", status := "completed" } (by decide) (by decide)⟩

/-- C3 counterexample: a conversation at step 0 with no flow set whose latest
message already carries a response. `handle_chat_response` does not assign a
flow here (it falls through to `_handle_standard_flow`), so "assigns this flow
exactly when the conversation is at step 0 with no flow yet set" fails in the
only-if direction. -/
theorem claim_C3_counterexample :
    findConversation staleWorld "s" = some { session_id := "s" } ∧
    ({ session_id := "s" } : Conversation).status = "active" ∧
    ({ session_id := "s" } : Conversation).current_step = 0 ∧
    ({ session_id := "s" } : Conversation).flow_type = none ∧
    preConversation (chat_response_pre staleWorld "s" "Give feedback") =
      some { session_id := "s" } := by
  decide

/-- C3 (amended): the five menu options map to their flows, and
`handle_chat_response` assigns the determined flow to the conversation exactly
when the conversation is at step 0 with no flow yet set AND its latest message
exists and is still unanswered; otherwise the conversation's flow is left as
it was. -/
theorem claim_C3_amended :
    (∀ r : String, pyLower r = "find a property to rent" →
      determine_flow_from_response r = "property_search") ∧
    (∀ r : String, pyLower r = "ask about a specific property" →
      determine_flow_from_response r = "rent_inquiry") ∧
    (∀ r : String, pyLower r = "schedule a property visit" →
      determine_flow_from_response r = "schedule_visit") ∧
    (∀ r : String, pyLower r = "report an issue" →
      determine_flow_from_response r = "bug_report") ∧
    (∀ r : String, pyLower r = "give feedback" →
      determine_flow_from_response r = "feedback") ∧
    (∀ (w : World) (sid resp : String) (conv : Conversation),
      findConversation w sid = some conv → conv.status = "active" →
      preConversation (chat_response_pre w sid resp) =
        some { conv with flow_type :=
          match latestMessage w sid with
          | some m =>
            if m.user_response = none ∧ conv.current_step = 0 ∧ conv.flow_type = none
            then some (determine_flow_from_response resp)
            else conv.flow_type
          | none => conv.flow_type }) := by
  refine ⟨?_, ?_, ?_, ?_, ?_, ?_⟩
  · intro r h; simp [determine_flow_from_response, flow_mapping, h]
  · intro r h; simp [determine_flow_from_response, flow_mapping, h]
  · intro r h; simp [determine_flow_from_response, flow_mapping, h]
  · intro r h; simp [determine_flow_from_response, flow_mapping, h]
  · intro r h; simp [determine_flow_from_response, flow_mapping, h]
  · intro w sid resp conv h hs
    obtain ⟨csid, cflow, cge, cgn, cstep, cstatus⟩ := conv
    simp only at hs
    subst hs
    simp only [chat_response_pre, h, ne_eq, not_true_eq_false, if_false]
    cases hm : latestMessage w sid with
    | none => simp [preConversation]
    | some m =>
      by_cases hr : m.user_response = none
      · by_cases hc : cstep = 0 ∧ cflow = (none : Option String)
        · simp [hr, hc, preConversation]
        · simp [hr, hc, preConversation]
      · simp [hr, preConversation]

/-- C3 witness: the fresh-conversation case — step 0, no flow, unanswered
initial question — where responding "Give feedback" assigns the feedback
flow. -/
theorem claim_C3_amended_witness :
    preConversation (chat_response_pre
      ⟨[{ session_id := "s" }],
       [{ msg_id := 0, session_id := "s", step_number := 0,
          question_text := "Hi! I'm your property assistant. How can I help you today?" }],
       1⟩ "s" "Give feedback") =
      some { session_id := "s", flow_type := some "feedback" } := by
  have h := claim_C3_amended.2.2.2.2.2
    ⟨[{ session_id := "s" }],
     [{ msg_id := 0, session_id := "s", step_number := 0,
        question_text := "Hi! I'm your property assistant. How can I help you today?" }],
     1⟩ "s" "Give feedback" { session_id := "s" } (by decide) (by decide)
  exact h.trans (by decide)

/-- C7: after a successful `delete_property`, `get_property_by_id` on the same
id is a 404, and the surviving property rows (and media rows) are exactly the
rows whose (property) id differs from the deleted one, each unchanged. -/
theorem claim_C7 {U : Type} [DecidableEq U] (parseUuid : String → Option U)
    (db db2 : PropertyDb U) (property_id : String)
    (h : delete_property parseUuid db property_id = .ok db2) :
    get_property_by_id parseUuid db2 property_id = .notFound ∧
    (∀ u, parseUuid property_id = some u →
      (∀ r : PropRow U, r ∈ db2.props ↔ r ∈ db.props ∧ r.id ≠ u) ∧
      (∀ m : MediaRow U, m ∈ db2.media ↔ m ∈ db.media ∧ m.property_id ≠ u)) := by
  cases hp : parseUuid property_id with
  | none => simp [delete_property, hp] at h
  | some u =>
    cases hf : db.props.find? (fun r => decide (r.id = u)) with
    | none => simp [delete_property, hp, hf] at h
    | some r0 =>
      simp only [delete_property, hp, hf, DeleteOutcome.ok.injEq] at h
      subst h
      refine ⟨?_, ?_⟩
      · have hnone :
            (db.props.filter (fun r => decide (r.id ≠ u))).find?
              (fun r => decide (r.id = u)) = none := by
          apply List.find?_eq_none.mpr
          intro x hx
          have := (List.mem_filter.mp hx).2
          simpa using this
        simp only [get_property_by_id, hp]
        rw [hnone]
      · intro u2 hu2
        injection hu2 with hh
        subst hh
        constructor
        · intro r
          simp [List.mem_filter]
        · intro m
          simp [List.mem_filter]

/-- C7 witness: deleting property 1 from `sampleDb` makes `get` 404 on "1",
keeps property 2's row, and keeps property 2's media row. -/
theorem claim_C7_witness :
    get_property_by_id sampleParse sampleDbAfter "1" = .notFound ∧
    (({ id := 2, title := "City Flat", description := none, city := some "Mumbai",
        state := some "MH" } : PropRow Nat) ∈ sampleDbAfter.props ↔
      ({ id := 2, title := "City Flat", description := none, city := some "Mumbai",
         state := some "MH" } : PropRow Nat) ∈ sampleDb.props ∧ (2 : Nat) ≠ 1) ∧
    (({ media_id := "m2", property_id := 2, url := "u2", is_cover := false } :
        MediaRow Nat) ∈ sampleDbAfter.media ↔
      ({ media_id := "m2", property_id := 2, url := "u2", is_cover := false } :
        MediaRow Nat) ∈ sampleDb.media ∧ (2 : Nat) ≠ 1) := by
  have h := claim_C7 sampleParse sampleDb sampleDbAfter "1" (by decide)
  have h2 := h.2 1 (by decide)
  exact ⟨h.1,
    h2.1 { id := 2, title := "City Flat", description := none, city := some "Mumbai",
           state := some "MH" },
    h2.2 { media_id := "m2", property_id := 2, url := "u2", is_cover := false }⟩

/-- Every question the engine serves for the `property_search` flow carries
`is_final = false` (helper shared by the C9 theorems' proof structure is kept
here, claim-independent). -/
theorem ps_is_final_false (step : Nat) (q : EngineQuestion)
    (h : get_next_question "property_search" step = some q) : q.is_final = false := by
  by_cases h8 : step < 8
  · have hall : ∀ s < 8,
        ((get_next_question "property_search" s).map (fun q => q.is_final)).getD false
          = false := by decide
    have := hall step h8
    rw [h] at this
    simpa using this
  · have hlen : ((FLOWS_lookup "property_search").getD []).length = 8 := by decide
    have hlk : FLOWS_lookup "property_search" =
        some ((FLOWS_lookup "property_search").getD []) := by decide
    rw [get_next_question, hlk] at h
    dsimp only at h
    rw [dif_neg (show ¬ step < ((FLOWS_lookup "property_search").getD []).length by
      rw [hlen]; omega)] at h
    exact absurd h (by simp)

/-- The engine runs out of `property_search` questions exactly at step 8. -/
theorem ps_question_none_iff (step : Nat) :
    get_next_question "property_search" step = none ↔ 8 ≤ step := by
  have hlen : ((FLOWS_lookup "property_search").getD []).length = 8 := by decide
  have hlk : FLOWS_lookup "property_search" =
      some ((FLOWS_lookup "property_search").getD []) := by decide
  rw [get_next_question, hlk]
  dsimp only
  by_cases h8 : step < 8
  · rw [dif_pos (show step < ((FLOWS_lookup "property_search").getD []).length by
      rw [hlen]; omega)]
    simp
    omega
  · rw [dif_neg (show ¬ step < ((FLOWS_lookup "property_search").getD []).length by
      rw [hlen]; omega)]
    simp
    omega

/-- C9 counterexample: at step 8 the property-search controller shows the
completion message whatever the previous question was — here the pets
question — so termination does not happen "only when the controller matches
the email question's text against the previous question". -/
theorem claim_C9_counterexample :
    propertySearchStep 8 "Do you have pets?" "Yes" = .completion ∧
    pyLower "Do you have pets?" ≠ psEmailQuestionCmp := by
  decide

/-- C9 (amended): every `property_search` question the engine returns has
`is_final = false` — the stored last question explicitly overrides `is_final`
to `False` — so the engine never marks the flow finished; the controller's
email-text-match completion branch is unreachable (it requires a true
`is_final`), and the flow instead terminates exactly when the engine runs out
of questions, i.e. at step ≥ 8. -/
theorem claim_C9_amended :
    (∀ step q, get_next_question "property_search" step = some q →
      q.is_final = false) ∧
    ((((FLOWS_lookup "property_search").getD []).get? 7).map
        (fun q => q.is_final_override)) = some (some false) ∧
    (∀ (step : Nat) (question_text user_response : String),
      propertySearchStep step question_text user_response = .completion ↔ 8 ≤ step) := by
  refine ⟨ps_is_final_false, by decide, ?_⟩
  intro step question_text user_response
  constructor
  · intro hc
    by_contra h8
    have h8' : step < 8 := by omega
    have hq : ∃ q, get_next_question "property_search" step = some q := by
      cases hgn : get_next_question "property_search" step with
      | none => exact absurd ((ps_question_none_iff step).mp hgn) (by omega)
      | some q => exact ⟨q, rfl⟩
    obtain ⟨q, hq⟩ := hq
    have hf := ps_is_final_false step q hq
    rw [propertySearchStep, hq] at hc
    simp only [hf] at hc
    exact absurd hc (by simp)
  · intro h8
    rw [propertySearchStep, (ps_question_none_iff step).mpr h8]

/-- C9 witness: the engine's budget question (index 2) is not final. -/
theorem claim_C9_amended_witness :
    ({ question := "What's your budget range per month?"
     , options := some ["Under ₹10,000", "₹10,000-₹25,000", "₹25,000-₹50,000",
         "₹50,000-₹1,00,000", "Above ₹1,00,000"]
     , input_type := "choice", step_number := 3, is_final := false } :
       EngineQuestion).is_final = false :=
  claim_C9_amended.1 2
    { question := "What's your budget range per month?"
    , options := some ["Under ₹10,000", "₹10,000-₹25,000", "₹25,000-₹50,000",
        "₹50,000-₹1,00,000", "Above ₹1,00,000"]
    , input_type := "choice", step_number := 3, is_final := false }
    (by decide)

/-! ### Helper lemmas about `splitOnPipe`, `stripAll` and `parseStep` -/

theorem splitOnPipe_ne_nil (s : List Char) : splitOnPipe s ≠ [] := by
  cases s with
  | nil => simp [splitOnPipe]
  | cons c rest =>
    simp only [splitOnPipe]
    cases h : splitOnPipe rest with
    | nil => simp
    | cons hh tt =>
      by_cases hc : c = '|' <;> simp [hc]

theorem splitOnPipe_no_pipe (s : List Char) (h : '|' ∉ s) : splitOnPipe s = [s] := by
  induction s with
  | nil => rfl
  | cons c rest ih =>
    have hc : c ≠ '|' := fun e => h (by simp [e])
    have hr : '|' ∉ rest := fun e => h (by simp [e])
    simp only [splitOnPipe, ih hr]
    simp [hc]

theorem splitOnPipe_append (a b : List Char) (h : '|' ∉ a) :
    splitOnPipe (a ++ '|' :: b) = a :: splitOnPipe b := by
  induction a with
  | nil =>
    simp only [List.nil_append, splitOnPipe]
    cases hs : splitOnPipe b with
    | nil => exact absurd hs (splitOnPipe_ne_nil b)
    | cons hh tt => simp
  | cons c rest ih =>
    have hc : c ≠ '|' := fun e => h (by simp [e])
    have hr : '|' ∉ rest := fun e => h (by simp [e])
    simp only [List.cons_append, splitOnPipe, List.append_eq]
    rw [ih hr]
    simp [hc]

theorem stripAll_nil (tag : List Char) : stripAll tag [] = [] := by
  rw [stripAll]

theorem stripAll_cons_neg (tag : List Char) (c : Char) (rest : List Char)
    (h : tag.isPrefixOf (c :: rest) = false) :
    stripAll tag (c :: rest) = c :: stripAll tag rest := by
  rw [stripAll]
  rw [dif_neg]
  intro hcontra
  rw [hcontra.2] at h
  exact absurd h (by simp)

theorem stripAll_cons_pos (tag : List Char) (c : Char) (rest : List Char)
    (htag : tag ≠ []) (h : tag.isPrefixOf (c :: rest) = true) :
    stripAll tag (c :: rest) = stripAll tag (List.drop tag.length (c :: rest)) := by
  rw [stripAll]
  rw [dif_pos ⟨htag, h⟩]

theorem stripAll_eq_self (tag : List Char) (s : List Char)
    (h : containsSeq tag s = false) : stripAll tag s = s := by
  induction s with
  | nil => exact stripAll_nil tag
  | cons c rest ih =>
    simp only [containsSeq, Bool.or_eq_false_iff] at h
    rw [stripAll_cons_neg tag c rest h.1, ih h.2]

theorem isPrefixOf_append_self (l t : List Char) : l.isPrefixOf (l ++ t) = true := by
  induction l with
  | nil => simp [List.isPrefixOf]
  | cons c rest ih => simp [List.isPrefixOf, ih]

theorem stripAll_tag_prefix (tag x : List Char) (htag : tag ≠ [])
    (h : containsSeq tag x = false) : stripAll tag (tag ++ x) = x := by
  obtain ⟨t, ts, rfl⟩ : ∃ t ts, tag = t :: ts := by
    cases tag with
    | nil => exact absurd rfl htag
    | cons a as => exact ⟨a, as, rfl⟩
  rw [List.cons_append, stripAll_cons_pos (t :: ts) t (ts ++ x) htag
    (by rw [← List.cons_append]; exact isPrefixOf_append_self (t :: ts) x)]
  rw [← List.cons_append, List.drop_left]
  exact stripAll_eq_self (t :: ts) x h

theorem isPrefixOf_false_of_head_ne (a b : Char) (as x : List Char) (h : (a == b) = false) :
    (a :: as).isPrefixOf (b :: x) = false := by
  simp [List.isPrefixOf, h]

theorem parseStep_category_branch (st : FeedbackParsed) (x : List Char) :
    parseStep st ("CATEGORY:".data ++ x) =
      { st with category := stripAll "CATEGORY:".data ("CATEGORY:".data ++ x) } := by
  rw [parseStep, if_pos (isPrefixOf_append_self "CATEGORY:".data x)]

theorem parseStep_rating_branch (st : FeedbackParsed) (x : List Char) :
    parseStep st ("RATING:".data ++ x) =
      { st with rating := stripAll "RATING:".data ("RATING:".data ++ x) } := by
  rw [parseStep]
  rw [if_neg (c := ("CATEGORY:".data.isPrefixOf ("RATING:".data ++ x) = true)) (by
    rw [show "RATING:".data ++ x = 'R' :: ("ATING:".data ++ x) from rfl,
      show "CATEGORY:".data = 'C' :: "ATEGORY:".data from rfl]
    simp [isPrefixOf_false_of_head_ne 'C' 'R' _ _ (by decide)])]
  rw [if_pos (isPrefixOf_append_self "RATING:".data x)]

theorem parseStep_details_branch (st : FeedbackParsed) (x : List Char) :
    parseStep st ("DETAILS:".data ++ x) =
      { st with details := stripAll "DETAILS:".data ("DETAILS:".data ++ x) } := by
  rw [parseStep]
  rw [if_neg (c := ("CATEGORY:".data.isPrefixOf ("DETAILS:".data ++ x) = true)) (by
    rw [show "DETAILS:".data ++ x = 'D' :: ("ETAILS:".data ++ x) from rfl,
      show "CATEGORY:".data = 'C' :: "ATEGORY:".data from rfl]
    simp [isPrefixOf_false_of_head_ne 'C' 'D' _ _ (by decide)])]
  rw [if_neg (c := ("RATING:".data.isPrefixOf ("DETAILS:".data ++ x) = true)) (by
    rw [show "DETAILS:".data ++ x = 'D' :: ("ETAILS:".data ++ x) from rfl,
      show "RATING:".data = 'R' :: "ATING:".data from rfl]
    simp [isPrefixOf_false_of_head_ne 'R' 'D' _ _ (by decide)])]
  rw [if_pos (isPrefixOf_append_self "DETAILS:".data x)]

theorem parseStep_suggestions_branch (st : FeedbackParsed) (x : List Char) :
    parseStep st ("SUGGESTIONS:".data ++ x) =
      { st with suggestions := stripAll "SUGGESTIONS:".data ("SUGGESTIONS:".data ++ x) } := by
  rw [parseStep]
  rw [if_neg (c := ("CATEGORY:".data.isPrefixOf ("SUGGESTIONS:".data ++ x) = true)) (by
    rw [show "SUGGESTIONS:".data ++ x = 'S' :: ("UGGESTIONS:".data ++ x) from rfl,
      show "CATEGORY:".data = 'C' :: "ATEGORY:".data from rfl]
    simp [isPrefixOf_false_of_head_ne 'C' 'S' _ _ (by decide)])]
  rw [if_neg (c := ("RATING:".data.isPrefixOf ("SUGGESTIONS:".data ++ x) = true)) (by
    rw [show "SUGGESTIONS:".data ++ x = 'S' :: ("UGGESTIONS:".data ++ x) from rfl,
      show "RATING:".data = 'R' :: "ATING:".data from rfl]
    simp [isPrefixOf_false_of_head_ne 'R' 'S' _ _ (by decide)])]
  rw [if_neg (c := ("DETAILS:".data.isPrefixOf ("SUGGESTIONS:".data ++ x) = true)) (by
    rw [show "SUGGESTIONS:".data ++ x = 'S' :: ("UGGESTIONS:".data ++ x) from rfl,
      show "DETAILS:".data = 'D' :: "ETAILS:".data from rfl]
    simp [isPrefixOf_false_of_head_ne 'D' 'S' _ _ (by decide)])]
  rw [if_pos (isPrefixOf_append_self "SUGGESTIONS:".data x)]

theorem parseStep_followup_branch (st : FeedbackParsed) (x : List Char) :
    parseStep st ("FOLLOWUP:".data ++ x) =
      { st with followup := stripAll "FOLLOWUP:".data ("FOLLOWUP:".data ++ x) } := by
  rw [parseStep]
  rw [if_neg (c := ("CATEGORY:".data.isPrefixOf ("FOLLOWUP:".data ++ x) = true)) (by
    rw [show "FOLLOWUP:".data ++ x = 'F' :: ("OLLOWUP:".data ++ x) from rfl,
      show "CATEGORY:".data = 'C' :: "ATEGORY:".data from rfl]
    simp [isPrefixOf_false_of_head_ne 'C' 'F' _ _ (by decide)])]
  rw [if_neg (c := ("RATING:".data.isPrefixOf ("FOLLOWUP:".data ++ x) = true)) (by
    rw [show "FOLLOWUP:".data ++ x = 'F' :: ("OLLOWUP:".data ++ x) from rfl,
      show "RATING:".data = 'R' :: "ATING:".data from rfl]
    simp [isPrefixOf_false_of_head_ne 'R' 'F' _ _ (by decide)])]
  rw [if_neg (c := ("DETAILS:".data.isPrefixOf ("FOLLOWUP:".data ++ x) = true)) (by
    rw [show "FOLLOWUP:".data ++ x = 'F' :: ("OLLOWUP:".data ++ x) from rfl,
      show "DETAILS:".data = 'D' :: "ETAILS:".data from rfl]
    simp [isPrefixOf_false_of_head_ne 'D' 'F' _ _ (by decide)])]
  rw [if_neg (c := ("SUGGESTIONS:".data.isPrefixOf ("FOLLOWUP:".data ++ x) = true)) (by
    rw [show "FOLLOWUP:".data ++ x = 'F' :: ("OLLOWUP:".data ++ x) from rfl,
      show "SUGGESTIONS:".data = 'S' :: "UGGESTIONS:".data from rfl]
    simp [isPrefixOf_false_of_head_ne 'S' 'F' _ _ (by decide)])]
  rw [if_pos (isPrefixOf_append_self "FOLLOWUP:".data x)]

theorem parseStep_category_clean (st : FeedbackParsed) (x : List Char)
    (h : containsSeq "CATEGORY:".data x = false) :
    parseStep st ("CATEGORY:".data ++ x) = { st with category := x } := by
  rw [parseStep_category_branch, stripAll_tag_prefix _ _ (by decide) h]

theorem parseStep_rating_clean (st : FeedbackParsed) (x : List Char)
    (h : containsSeq "RATING:".data x = false) :
    parseStep st ("RATING:".data ++ x) = { st with rating := x } := by
  rw [parseStep_rating_branch, stripAll_tag_prefix _ _ (by decide) h]

theorem parseStep_details_clean (st : FeedbackParsed) (x : List Char)
    (h : containsSeq "DETAILS:".data x = false) :
    parseStep st ("DETAILS:".data ++ x) = { st with details := x } := by
  rw [parseStep_details_branch, stripAll_tag_prefix _ _ (by decide) h]

theorem parseStep_suggestions_clean (st : FeedbackParsed) (x : List Char)
    (h : containsSeq "SUGGESTIONS:".data x = false) :
    parseStep st ("SUGGESTIONS:".data ++ x) = { st with suggestions := x } := by
  rw [parseStep_suggestions_branch, stripAll_tag_prefix _ _ (by decide) h]

theorem parseStep_followup_clean (st : FeedbackParsed) (x : List Char)
    (h : containsSeq "FOLLOWUP:".data x = false) :
    parseStep st ("FOLLOWUP:".data ++ x) = { st with followup := x } := by
  rw [parseStep_followup_branch, stripAll_tag_prefix _ _ (by decide) h]

theorem pipe_not_mem_tagged (tag x : List Char) (htag : '|' ∉ tag) (hx : '|' ∉ x) :
    '|' ∉ tag ++ x := by
  intro hm
  rcases List.mem_append.mp hm with h | h
  · exact htag h
  · exact hx h

/-- C4 (amended): the feedback flow serializes its answers into `guest_email`
as `CATEGORY:c|RATING:r|DETAILS:d|SUGGESTIONS:s|FOLLOWUP:f` (the
`SUGGESTIONS:` field only for ratings of 4 or 5), and for responses that
contain neither `'|'` nor their own field tag, `_complete_feedback`'s parse
recovers each stored response exactly. (The claim as stated quantifies over
all pipe-free responses; a response containing its own tag, e.g. a category
answer containing `"CATEGORY:"`, is mangled because the parse uses
`str.replace`, which deletes every occurrence of the tag — see the
counterexample.) -/
theorem claim_C4_amended (c r d s f : List Char)
    (hc : '|' ∉ c) (hr : '|' ∉ r) (hd : '|' ∉ d) (hs : '|' ∉ s) (hf : '|' ∉ f)
    (nc : containsSeq "CATEGORY:".data c = false)
    (nr : containsSeq "RATING:".data r = false)
    (nd : containsSeq "DETAILS:".data d = false)
    (ns : containsSeq "SUGGESTIONS:".data s = false)
    (nf : containsSeq "FOLLOWUP:".data f = false) :
    feedbackParse (feedbackStored c r d s f) =
      { category := c, rating := r, details := d
      , suggestions :=
          if 4 ≤ ratingValueFromStored (storedAfterRating c r) then s else []
      , followup := f } := by
  have hA : '|' ∉ "CATEGORY:".data ++ c := pipe_not_mem_tagged _ _ (by decide) hc
  have hB : '|' ∉ "RATING:".data ++ r := pipe_not_mem_tagged _ _ (by decide) hr
  have hD : '|' ∉ "DETAILS:".data ++ d := pipe_not_mem_tagged _ _ (by decide) hd
  have hS : '|' ∉ "SUGGESTIONS:".data ++ s := pipe_not_mem_tagged _ _ (by decide) hs
  have hF : '|' ∉ "FOLLOWUP:".data ++ f := pipe_not_mem_tagged _ _ (by decide) hf
  by_cases h4 : 4 ≤ ratingValueFromStored (storedAfterRating c r)
  · have hstored : feedbackStored c r d s f =
        ("CATEGORY:".data ++ c) ++ '|' :: (("RATING:".data ++ r) ++ '|' ::
          (("DETAILS:".data ++ d) ++ '|' :: (("SUGGESTIONS:".data ++ s) ++ '|' ::
            ("FOLLOWUP:".data ++ f)))) := by
      unfold feedbackStored
      dsimp only
      rw [if_pos h4]
      simp only [storedAfterDetails, storedAfterRating, storedAfterCategory,
        show "|RATING:".data = '|' :: "RATING:".data from rfl,
        show "|DETAILS:".data = '|' :: "DETAILS:".data from rfl,
        show "|SUGGESTIONS:".data = '|' :: "SUGGESTIONS:".data from rfl,
        show "|FOLLOWUP:".data = '|' :: "FOLLOWUP:".data from rfl]
      simp [List.append_assoc]
    rw [if_pos h4, feedbackParse, hstored]
    rw [splitOnPipe_append _ _ hA, splitOnPipe_append _ _ hB, splitOnPipe_append _ _ hD,
      splitOnPipe_append _ _ hS, splitOnPipe_no_pipe _ hF]
    simp only [List.foldl_cons, List.foldl_nil]
    rw [parseStep_category_clean _ _ nc, parseStep_rating_clean _ _ nr,
      parseStep_details_clean _ _ nd, parseStep_suggestions_clean _ _ ns,
      parseStep_followup_clean _ _ nf]
  · have hstored : feedbackStored c r d s f =
        ("CATEGORY:".data ++ c) ++ '|' :: (("RATING:".data ++ r) ++ '|' ::
          (("DETAILS:".data ++ d) ++ '|' :: ("FOLLOWUP:".data ++ f))) := by
      unfold feedbackStored
      dsimp only
      rw [if_neg h4]
      simp only [storedAfterDetails, storedAfterRating, storedAfterCategory,
        show "|RATING:".data = '|' :: "RATING:".data from rfl,
        show "|DETAILS:".data = '|' :: "DETAILS:".data from rfl,
        show "|FOLLOWUP:".data = '|' :: "FOLLOWUP:".data from rfl]
      simp [List.append_assoc]
    rw [if_neg h4, feedbackParse, hstored]
    rw [splitOnPipe_append _ _ hA, splitOnPipe_append _ _ hB, splitOnPipe_append _ _ hD,
      splitOnPipe_no_pipe _ hF]
    simp only [List.foldl_cons, List.foldl_nil]
    rw [parseStep_category_clean _ _ nc, parseStep_rating_clean _ _ nr,
      parseStep_details_clean _ _ nd, parseStep_followup_clean _ _ nf]

theorem stripAll_append_tag (tag x : List Char) (htag : tag ≠ []) :
    stripAll tag (tag ++ x) = stripAll tag x := by
  obtain ⟨t, ts, rfl⟩ : ∃ t ts, tag = t :: ts := by
    cases tag with
    | nil => exact absurd rfl htag
    | cons a as => exact ⟨a, as, rfl⟩
  rw [List.cons_append, stripAll_cons_pos (t :: ts) t (ts ++ x) htag
    (by rw [← List.cons_append]; exact isPrefixOf_append_self (t :: ts) x)]
  rw [← List.cons_append, List.drop_left]

/-- C4 witness: a full low-rating feedback conversation round-trips through
`guest_email` exactly. -/
theorem claim_C4_amended_witness :
    feedbackParse (feedbackStored "Customer support".data "⭐⭐ Poor (2/5)".data
        "slow replies".data "n/a".data "No, thank you".data) =
      { category := "Customer support".data, rating := "⭐⭐ Poor (2/5)".data
      , details := "slow replies".data, suggestions := []
      , followup := "No, thank you".data } := by
  have h := claim_C4_amended "Customer support".data "⭐⭐ Poor (2/5)".data
    "slow replies".data "n/a".data "No, thank you".data
    (by decide) (by decide) (by decide) (by decide) (by decide)
    (by decide) (by decide) (by decide) (by decide) (by decide)
  exact h.trans (by decide)

/-- C4 counterexample: every response is pipe-free, yet the category response
`"xCATEGORY:y"` is recovered as `"xy"` — `_complete_feedback` uses
`part.replace("CATEGORY:", "")`, which deletes the tag everywhere, not just at
the front — so the round trip claimed for all pipe-free responses fails. -/
theorem claim_C4_counterexample :
    ('|' ∉ "xCATEGORY:y".data ∧ '|' ∉ "(2/5)".data ∧ '|' ∉ "ok".data ∧
      '|' ∉ "No".data) ∧
    (feedbackParse (feedbackStored "xCATEGORY:y".data "(2/5)".data "ok".data "zz".data
        "No".data)).category = "xy".data ∧
    "xy".data ≠ "xCATEGORY:y".data := by
  refine ⟨by decide, ?_, by decide⟩
  have hst : feedbackStored "xCATEGORY:y".data "(2/5)".data "ok".data "zz".data
      "No".data = "CATEGORY:xCATEGORY:y|RATING:(2/5)|DETAILS:ok|FOLLOWUP:No".data := by
    decide
  have hsp : splitOnPipe "CATEGORY:xCATEGORY:y|RATING:(2/5)|DETAILS:ok|FOLLOWUP:No".data =
      ["CATEGORY:xCATEGORY:y".data, "RATING:(2/5)".data, "DETAILS:ok".data,
        "FOLLOWUP:No".data] := by
    decide
  have hstrip : stripAll "CATEGORY:".data ("CATEGORY:".data ++ "xCATEGORY:y".data) =
      "xy".data := by
    rw [stripAll_append_tag _ _ (by decide)]
    rw [show ("xCATEGORY:y".data : List Char) = 'x' :: ("CATEGORY:".data ++ "y".data)
      from rfl]
    rw [stripAll_cons_neg _ _ _ (by decide)]
    rw [stripAll_append_tag _ _ (by decide)]
    rw [stripAll_eq_self _ _ (by decide)]
  rw [feedbackParse, hst, hsp]
  rw [List.foldl_cons, List.foldl_cons, List.foldl_cons, List.foldl_cons, List.foldl_nil]
  rw [show ("CATEGORY:xCATEGORY:y".data : List Char) =
    "CATEGORY:".data ++ "xCATEGORY:y".data from rfl]
  rw [parseStep_category_branch, hstrip]
  rw [show ("RATING:(2/5)".data : List Char) = "RATING:".data ++ "(2/5)".data from rfl,
    parseStep_rating_clean _ _ (by decide)]
  rw [show ("DETAILS:ok".data : List Char) = "DETAILS:".data ++ "ok".data from rfl,
    parseStep_details_clean _ _ (by decide)]
  rw [show ("FOLLOWUP:No".data : List Char) = "FOLLOWUP:".data ++ "No".data from rfl,
    parseStep_followup_clean _ _ (by decide)]

/-- C10: a falsy criterion value is treated as absent — `budget_min = 0`,
`budget_max = 0` or `bedrooms_required = 0` makes the corresponding criterion
contribute to neither the earned points nor the maximum (both components and
the final score equal those with the criterion set to `None`). -/
theorem claim_C10 (p : PropertyObj) (c : Criteria) :
    (matchComponents p { c with budget_min := some 0 } =
        matchComponents p { c with budget_min := none } ∧
      calculate_property_match_score p { c with budget_min := some 0 } =
        calculate_property_match_score p { c with budget_min := none }) ∧
    (matchComponents p { c with budget_max := some 0 } =
        matchComponents p { c with budget_max := none } ∧
      calculate_property_match_score p { c with budget_max := some 0 } =
        calculate_property_match_score p { c with budget_max := none }) ∧
    (matchComponents p { c with bedrooms_required := some 0 } =
        matchComponents p { c with bedrooms_required := none } ∧
      calculate_property_match_score p { c with bedrooms_required := some 0 } =
        calculate_property_match_score p { c with bedrooms_required := none }) := by
  have h1 : matchComponents p { c with budget_min := some 0 } =
      matchComponents p { c with budget_min := none } := by
    simp [matchComponents, budgetBlock, locationBlock, bedroomsBlock, bathroomsBlock,
      typeBlock, truthyQ]
  have h2 : matchComponents p { c with budget_max := some 0 } =
      matchComponents p { c with budget_max := none } := by
    simp [matchComponents, budgetBlock, locationBlock, bedroomsBlock, bathroomsBlock,
      typeBlock, truthyQ]
  have h3 : matchComponents p { c with bedrooms_required := some 0 } =
      matchComponents p { c with bedrooms_required := none } := by
    simp [matchComponents, budgetBlock, locationBlock, bedroomsBlock, bathroomsBlock,
      typeBlock, truthyN]
  refine ⟨⟨h1, ?_⟩, ⟨h2, ?_⟩, ⟨h3, ?_⟩⟩ <;>
    simp only [calculate_property_match_score, h1, h2, h3]

/-! ### Helper lemmas for the score equalities and bounds -/

theorem truthyN_eq_true_iff (o : Option Nat) : truthyN o = true ↔ 1 ≤ o.getD 0 := by
  cases o with
  | none => simp [truthyN]
  | some n =>
    simp only [truthyN, Option.getD_some, bne_iff_ne, ne_eq]
    omega

theorem budgetBlock_fst (p : PropertyObj) (c : Criteria) :
    (budgetBlock p c).1 =
      if truthyQ c.budget_min ∧ truthyQ c.budget_max then specBudgetPoints p c else 0 := by
  unfold budgetBlock specBudgetPoints
  split_ifs <;> rfl

theorem budgetBlock_weight (p : PropertyObj) (c : Criteria) :
    (budgetBlock p c).2.1 =
      if truthyQ c.budget_min ∧ truthyQ c.budget_max then (30 : ℚ) else 0 := by
  unfold budgetBlock
  split_ifs <;> rfl

theorem locationBlock_fst (p : PropertyObj) (c : Criteria) :
    (locationBlock p c).1 =
      if truthyS c.preferred_location then specLocationPoints p c else 0 := by
  unfold locationBlock specLocationPoints
  split_ifs <;> rfl

theorem locationBlock_weight (p : PropertyObj) (c : Criteria) :
    (locationBlock p c).2.1 =
      if truthyS c.preferred_location then (25 : ℚ) else 0 := by
  unfold locationBlock
  split_ifs <;> rfl

theorem bedroomsBlock_fst (p : PropertyObj) (c : Criteria) :
    (bedroomsBlock p c).1 =
      if truthyN c.bedrooms_required then specBedroomsPointsAmended p c else 0 := by
  unfold bedroomsBlock specBedroomsPointsAmended
  by_cases hreq : truthyN c.bedrooms_required = true
  · rw [if_pos hreq, if_pos hreq]
    have hr1 : 1 ≤ c.bedrooms_required.getD 0 := (truthyN_eq_true_iff _).mp hreq
    by_cases hA : truthyN p.bedrooms = true
    · have hb1 : 1 ≤ p.bedrooms.getD 0 := (truthyN_eq_true_iff _).mp hA
      by_cases hle : c.bedrooms_required.getD 0 ≤ p.bedrooms.getD 0
      · rw [if_pos ⟨hA, hle⟩, if_pos hle]
      · rw [if_neg (fun hcon => hle hcon.2), if_neg hle]
        by_cases heq : p.bedrooms.getD 0 = c.bedrooms_required.getD 0 - 1
        · rw [if_pos ⟨hA, heq⟩, if_pos ⟨heq, by omega⟩]
        · rw [if_neg (fun hcon => heq hcon.2), if_neg (fun hcon => heq hcon.1)]
    · have hb0 : p.bedrooms.getD 0 = 0 := by
        have := (truthyN_eq_true_iff p.bedrooms).not.mp hA
        omega
      rw [if_neg (fun hcon => hA hcon.1), if_neg (fun hcon => hA hcon.1)]
      rw [if_neg (by omega), if_neg (fun hcon => hcon.2 hb0)]
  · rw [if_neg hreq, if_neg hreq]

theorem bedroomsBlock_weight (p : PropertyObj) (c : Criteria) :
    (bedroomsBlock p c).2.1 =
      if truthyN c.bedrooms_required then (20 : ℚ) else 0 := by
  unfold bedroomsBlock
  split_ifs <;> rfl

theorem bathroomsBlock_fst (p : PropertyObj) (c : Criteria) :
    (bathroomsBlock p c).1 =
      if truthyN c.bathrooms_required then specBathroomsPoints p c else 0 := by
  unfold bathroomsBlock specBathroomsPoints
  split_ifs <;> rfl

theorem bathroomsBlock_weight (p : PropertyObj) (c : Criteria) :
    (bathroomsBlock p c).2.1 =
      if truthyN c.bathrooms_required then (15 : ℚ) else 0 := by
  unfold bathroomsBlock
  split_ifs <;> rfl

theorem typeBlock_fst (p : PropertyObj) (c : Criteria) :
    (typeBlock p c).1 =
      if truthyS c.property_type_preference then specTypePoints p c else 0 := by
  unfold typeBlock specTypePoints
  split_ifs <;> rfl

theorem typeBlock_weight (p : PropertyObj) (c : Criteria) :
    (typeBlock p c).2.1 =
      if truthyS c.property_type_preference then (10 : ℚ) else 0 := by
  unfold typeBlock
  split_ifs <;> rfl

theorem matchComponents_fst (p : PropertyObj) (c : Criteria) :
    (matchComponents p c).1 = specAmendedPoints p c := by
  unfold matchComponents specAmendedPoints
  dsimp only
  rw [budgetBlock_fst, locationBlock_fst, bedroomsBlock_fst, bathroomsBlock_fst,
    typeBlock_fst]

theorem matchComponents_weight (p : PropertyObj) (c : Criteria) :
    (matchComponents p c).2.1 = specWeights c := by
  unfold matchComponents specWeights
  dsimp only
  rw [budgetBlock_weight, locationBlock_weight, bedroomsBlock_weight, bathroomsBlock_weight,
    typeBlock_weight]

theorem budgetBlock_bounds (p : PropertyObj) (c : Criteria) :
    0 ≤ (budgetBlock p c).1 ∧ (budgetBlock p c).1 ≤ (budgetBlock p c).2.1 := by
  unfold budgetBlock
  split_ifs <;> norm_num

theorem locationBlock_bounds (p : PropertyObj) (c : Criteria) :
    0 ≤ (locationBlock p c).1 ∧ (locationBlock p c).1 ≤ (locationBlock p c).2.1 := by
  unfold locationBlock
  split_ifs <;> norm_num

theorem bedroomsBlock_bounds (p : PropertyObj) (c : Criteria) :
    0 ≤ (bedroomsBlock p c).1 ∧ (bedroomsBlock p c).1 ≤ (bedroomsBlock p c).2.1 := by
  unfold bedroomsBlock
  split_ifs <;> norm_num

theorem bathroomsBlock_bounds (p : PropertyObj) (c : Criteria) :
    0 ≤ (bathroomsBlock p c).1 ∧ (bathroomsBlock p c).1 ≤ (bathroomsBlock p c).2.1 := by
  unfold bathroomsBlock
  split_ifs <;> norm_num

theorem typeBlock_bounds (p : PropertyObj) (c : Criteria) :
    0 ≤ (typeBlock p c).1 ∧ (typeBlock p c).1 ≤ (typeBlock p c).2.1 := by
  unfold typeBlock
  split_ifs <;> norm_num

theorem matchComponents_bounds (p : PropertyObj) (c : Criteria) :
    0 ≤ (matchComponents p c).1 ∧ (matchComponents p c).1 ≤ (matchComponents p c).2.1 := by
  have h1 := budgetBlock_bounds p c
  have h2 := locationBlock_bounds p c
  have h3 := bedroomsBlock_bounds p c
  have h4 := bathroomsBlock_bounds p c
  have h5 := typeBlock_bounds p c
  unfold matchComponents
  dsimp only
  constructor
  · linarith [h1.1, h2.1, h3.1, h4.1, h5.1]
  · linarith [h1.2, h2.2, h3.2, h4.2, h5.2]

/-- C1 counterexample: a property with 0 bedrooms against a 1-bedroom
requirement has "exactly one fewer" bedroom, so the claim's formula yields
10/20·100 = 50, but the code's truthiness guard on `property_obj.bedrooms`
gives no partial credit and the returned score is 0. -/
theorem claim_C1_counterexample :
    (calculate_property_match_score studio0 oneBedCriteria).1 = 0 ∧
    specClaimScore studio0 oneBedCriteria = 50 ∧
    (calculate_property_match_score studio0 oneBedCriteria).1 ≠
      specClaimScore studio0 oneBedCriteria := by
  have h1 : (calculate_property_match_score studio0 oneBedCriteria).1 = 0 := by
    norm_num [calculate_property_match_score, matchComponents, budgetBlock, locationBlock,
      bedroomsBlock, bathroomsBlock, typeBlock, truthyN, truthyQ, truthyS, studio0,
      oneBedCriteria]
  have h2 : specClaimScore studio0 oneBedCriteria = 50 := by
    norm_num [specClaimScore, specClaimPoints, specWeights, specBudgetPoints,
      specLocationPoints, specBedroomsPoints, specBathroomsPoints, specTypePoints,
      truthyN, truthyQ, truthyS, studio0, oneBedCriteria]
  refine ⟨h1, h2, ?_⟩
  rw [h1, h2]
  norm_num

/-- C1 (amended): the returned final score equals the claim's weighted formula
with one correction — the 10-point bedroom partial credit additionally
requires the property's bedroom count to be non-zero (the code's truthiness
guard) — and the score always lies in [0, 100], and is 0 when no criterion is
present. -/
theorem claim_C1_amended (p : PropertyObj) (c : Criteria) :
    (calculate_property_match_score p c).1 = specAmendedScore p c ∧
    0 ≤ (calculate_property_match_score p c).1 ∧
    (calculate_property_match_score p c).1 ≤ 100 ∧
    (specWeights c = 0 → (calculate_property_match_score p c).1 = 0) := by
  have hb := matchComponents_bounds p c
  have heq : (calculate_property_match_score p c).1 = specAmendedScore p c := by
    unfold calculate_property_match_score specAmendedScore
    dsimp only
    rw [matchComponents_fst, matchComponents_weight]
  refine ⟨heq, ?_, ?_, ?_⟩
  · unfold calculate_property_match_score
    dsimp only
    by_cases hm : 0 < (matchComponents p c).2.1
    · rw [if_pos hm]
      have := hb.1
      positivity
    · rw [if_neg hm]
  · unfold calculate_property_match_score
    dsimp only
    by_cases hm : 0 < (matchComponents p c).2.1
    · rw [if_pos hm]
      have hle : (matchComponents p c).1 / (matchComponents p c).2.1 ≤ 1 :=
        (div_le_one hm).mpr hb.2
      nlinarith [hle]
    · rw [if_neg hm]
      norm_num
  · intro hw
    unfold calculate_property_match_score
    dsimp only
    rw [if_neg (by rw [matchComponents_weight, hw]; exact lt_irrefl 0)]

/-- C1 witness: with no criteria present the score is 0, and it matches the
amended formula. -/
theorem claim_C1_amended_witness :
    (calculate_property_match_score studio0 {}).1 = specAmendedScore studio0 {} ∧
    (calculate_property_match_score studio0 {}).1 = 0 :=
  ⟨(claim_C1_amended studio0 {}).1,
   (claim_C1_amended studio0 {}).2.2.2
     (by simp [specWeights, truthyQ, truthyN, truthyS])⟩

theorem pyRound1_ge_30 (x : ℚ) (h : 30 ≤ x) : 30 ≤ pyRound1 x := by
  unfold pyRound1
  rw [round_eq]
  have h1 : (300 : ℤ) ≤ ⌊x * 10 + 1 / 2⌋ := by
    rw [Int.le_floor]
    push_cast
    linarith
  have h2 : (300 : ℚ) ≤ (⌊x * 10 + 1 / 2⌋ : ℚ) := by exact_mod_cast h1
  linarith

/-- C6: `find_matching_properties` returns at most `limit` entries, sorted in
non-increasing `match_score` order, and every entry's `match_score` is at
least 30. -/
theorem claim_C6 (user_criteria : Criteria) (db : List PropertyObj) (limit : Nat) :
    (find_matching_properties user_criteria db limit).length ≤ limit ∧
    List.Pairwise (fun a b : MatchEntry => b.match_score ≤ a.match_score)
      (find_matching_properties user_criteria db limit) ∧
    (find_matching_properties user_criteria db limit).all
      (fun e => decide (30 ≤ e.match_score)) = true := by
  unfold find_matching_properties
  dsimp only
  refine ⟨?_, ?_, ?_⟩
  · rw [List.length_take]
    exact min_le_left _ _
  · have hsorted := @List.sorted_mergeSort MatchEntry
      (fun a b => decide (b.match_score ≤ a.match_score))
      (fun a b c hab hbc => by
        simp only [decide_eq_true_eq] at hab hbc ⊢
        exact le_trans hbc hab)
      (fun a b => by
        simp only [Bool.or_eq_true, decide_eq_true_eq]
        exact le_total b.match_score a.match_score)
    exact (List.Pairwise.sublist (List.take_sublist limit _) (hsorted _)).imp
      (fun hab => of_decide_eq_true hab)
  · rw [List.all_eq_true]
    intro e he
    have he1 := (List.take_sublist limit _).subset he
    have he2 := (List.mergeSort_perm _
      (fun a b : MatchEntry => decide (b.match_score ≤ a.match_score))).mem_iff.mp he1
    obtain ⟨p, hp, hfp⟩ := List.mem_filterMap.mp he2
    by_cases h30 : (30 : ℚ) ≤ (calculate_property_match_score p user_criteria).1
    · rw [if_pos (decide_eq_true h30)] at hfp
      obtain rfl : mkMatchEntry p (calculate_property_match_score p user_criteria).1
          (calculate_property_match_score p user_criteria).2 = e := by
        exact Option.some.inj hfp
      exact decide_eq_true (pyRound1_ge_30 _ h30)
    · rw [if_neg (by simpa using h30)] at hfp
      exact absurd hfp (by simp)
